import Mathlib

/-!
Shallow embedding of `src/TCP/connection.cpp` (class `MB::TCP::Connection`
of the Modbus-for-C++ library), covering socket-handle lifecycle, MBAP
framing, transaction-id correlation and error classification.

Modelling conventions:
* The host is little-endian (x86), the platform the non-`_WIN32` build
  targets; every `reinterpret_cast` in the source is translated under that
  byte order.
* Bytes are `Nat` values; the encoder applies `% 256` exactly where the
  source truncates to `uint8_t`, and `% 65536` / `% 4294967296` where the
  source holds a `uint16_t` / `uint32_t`.
* Blocking I/O is made explicit: each receive operation consumes the
  outcome of its single `poll` call and its single `recv` call as data
  (`PollResult`, `RecvResult`).
* Thrown `MB::ModbusException` values become `Except.error`; undefined
  behaviour (an out-of-bounds buffer access) becomes the outer `none` of
  an `Option`, distinct from every thrown error.
* The PDU codec is an external collaborator: `MB::ModbusException::exist`
  is an opaque predicate parameter, and "the payload handed to
  `fromRaw`" is returned as the `ok` value.
-/

namespace ModbusTCP

/-- Error codes of `MB::utils` thrown via `MB::ModbusException`, restricted
to those `connection.cpp` raises, plus the payload-decoded exception of
`throw MB::ModbusException(r)`. -/
inductive MBErr where
  | ConnectionClosed : MBErr
  | Timeout : MBErr
  | ProtocolError : MBErr
  | InvalidMessageID : MBErr
  | ProtocolException : List Nat → MBErr
deriving DecidableEq, Repr

/-- Outcome of the `::poll(&_pfd, 1, ms)` call: `ready` when it returns a
positive count, `timeout` when it returns `<= 0`. -/
inductive PollResult where
  | ready : PollResult
  | timeout : PollResult
deriving DecidableEq, Repr

/-- Outcome of the single `::recv(_sockfd, r.data(), 1024, 0)` call:
`error` for a `-1` return, `closed` for a `0` return, `data r` for a
positive return delivering the bytes `r` (at most 1024 of them). -/
inductive RecvResult where
  | error : RecvResult
  | closed : RecvResult
  | data : List Nat → RecvResult
deriving DecidableEq, Repr

/-- State of one `MB::TCP::Connection`: `_sockfd` (sentinel `-1` when
closed), `_messageID` (`uint16_t`), `_timeout` (milliseconds). -/
structure Connection where
  sockfd : Int
  messageID : Nat
  timeout : Int
deriving DecidableEq, Repr

/-- `Connection::DefaultTCPTimeout` from the header. -/
def DefaultTCPTimeout : Int := 500

/-- `*reinterpret_cast<uint16_t *>(&r[0])` on a little-endian host: the
value `r[0] | (r[1] << 8)`. Reads two bytes; on a buffer of fewer than
two bytes the access is out of bounds (`none`). -/
def readU16LE (r : List Nat) : Option Nat :=
  match r with
  | b0 :: b1 :: _ => some (b0 + 256 * b1)
  | _ => none

/-- `r.erase(r.begin(), r.begin() + 6)`: well-defined only when the buffer
holds at least 6 bytes; `r.begin() + 6` past the end is out of bounds
(`none`). -/
def eraseHeader (r : List Nat) : Option (List Nat) :=
  if 6 ≤ r.length then some (r.drop 6) else none

/-- The frame built identically by `sendRequest`, `sendResponse` and
`sendException` on a little-endian host: bytes `[1]` and `[0]` of the
`uint16_t` `_messageID` (its high then low byte), two zero protocol-id
bytes, then the two length bytes obtained by `reinterpret_cast<uint16_t *>`
on the `uint32_t` size — element `[1]` is the HIGH 16-bit half (bits
16..23 after the `uint8_t` cast) and element `[0]` the low half (bits
0..7) — then the payload verbatim. -/
def mbapFrame (messageID : Nat) (dat : List Nat) : List Nat :=
  let size : Nat := dat.length % 4294967296
  (messageID % 65536) / 256 :: messageID % 256 :: 0 :: 0 ::
    (size / 65536) % 65536 % 256 :: size % 65536 % 256 :: dat

/-- `Connection::sendRequest`: frames `req.toRaw()` with the stored
`_messageID`, writes it, returns the raw bytes. `_messageID` is not
modified. -/
def sendRequest (c : Connection) (dat : List Nat) : List Nat × Connection :=
  (mbapFrame c.messageID dat, c)

/-- `Connection::sendResponse`: identical framing to `sendRequest`. -/
def sendResponse (c : Connection) (dat : List Nat) : List Nat × Connection :=
  (mbapFrame c.messageID dat, c)

/-- `Connection::sendException`: identical framing to `sendRequest`. -/
def sendException (c : Connection) (dat : List Nat) : List Nat × Connection :=
  (mbapFrame c.messageID dat, c)

/-- Header processing of `awaitRequest` after a successful read: read the
16-bit id at offset 0 (to be stored into `_messageID`), erase the first 6
bytes, hand the rest to `ModbusRequest::fromRaw`. `ok (rid, payload)`
carries the stored id and the bytes reaching the codec. -/
def processRequestBuffer (r : List Nat) : Option (Except MBErr (Nat × List Nat)) :=
  match readU16LE r with
  | none => none
  | some rid =>
    match eraseHeader r with
    | none => none
    | some payload => some (Except.ok (rid, payload))

/-- Header processing of `awaitResponse` after a successful read: read the
16-bit id at offset 0, throw `InvalidMessageID` unless it equals the
stored `_messageID`, erase the first 6 bytes, throw the decoded exception
when `MB::ModbusException::exist` recognises the payload, otherwise hand
the payload to `ModbusResponse::fromRaw` (`ok`). -/
def processResponseBuffer (messageID : Nat) (exist : List Nat → Bool)
    (r : List Nat) : Option (Except MBErr (List Nat)) :=
  match readU16LE r with
  | none => none
  | some rid =>
    if rid = messageID then
      match eraseHeader r with
      | none => none
      | some payload =>
        if exist payload then some (Except.error (MBErr.ProtocolException payload))
        else some (Except.ok payload)
    else some (Except.error MBErr.InvalidMessageID)

/-- `Connection::awaitRawMessage`: poll expiry throws `ConnectionClosed`;
`recv` returning `-1` throws `ProtocolError`, `0` throws
`ConnectionClosed`; otherwise the read bytes are returned unprocessed. -/
def awaitRawMessage (p : PollResult) (rv : RecvResult) : Except MBErr (List Nat) :=
  match p with
  | PollResult.timeout => Except.error MBErr.ConnectionClosed
  | PollResult.ready =>
    match rv with
    | RecvResult.error => Except.error MBErr.ProtocolError
    | RecvResult.closed => Except.error MBErr.ConnectionClosed
    | RecvResult.data r => Except.ok r

/-- `Connection::awaitRequest`: poll expiry throws `Timeout`; `recv`
returning `-1` throws `ProtocolError`, `0` throws `ConnectionClosed`;
otherwise the single read's buffer is processed by
`processRequestBuffer`. -/
def awaitRequest (p : PollResult) (rv : RecvResult) :
    Option (Except MBErr (Nat × List Nat)) :=
  match p with
  | PollResult.timeout => some (Except.error MBErr.Timeout)
  | PollResult.ready =>
    match rv with
    | RecvResult.error => some (Except.error MBErr.ProtocolError)
    | RecvResult.closed => some (Except.error MBErr.ConnectionClosed)
    | RecvResult.data r => processRequestBuffer r

/-- `Connection::awaitResponse`: poll expiry (bound `_timeout`) throws
`Timeout`; `recv` returning `-1` throws `ProtocolError`, `0` throws
`ConnectionClosed`; otherwise the single read's buffer is processed by
`processResponseBuffer` against the stored `_messageID`. -/
def awaitResponse (messageID : Nat) (exist : List Nat → Bool)
    (p : PollResult) (rv : RecvResult) : Option (Except MBErr (List Nat)) :=
  match p with
  | PollResult.timeout => some (Except.error MBErr.Timeout)
  | PollResult.ready =>
    match rv with
    | RecvResult.error => some (Except.error MBErr.ProtocolError)
    | RecvResult.closed => some (Except.error MBErr.ConnectionClosed)
    | RecvResult.data r => processResponseBuffer messageID exist r

/-- Millisecond bound passed to `poll` by `awaitRequest` (`60 * 1000`). -/
def awaitRequestPollMs : Int := 60 * 1000

/-- Millisecond bound passed to `poll` by `awaitRawMessage` (`60 * 1000`). -/
def awaitRawMessagePollMs : Int := 60 * 1000

/-- Millisecond bound passed to `poll` by `awaitResponse` (`_timeout`). -/
def awaitResponsePollMs (c : Connection) : Int := c.timeout

/-- `Connection::closeSockfd`: closes the descriptor when `_sockfd >= 0`
and resets it to `-1`; returns the list of descriptors actually closed. -/
def closeSockfd (c : Connection) : Connection × List Int :=
  if 0 ≤ c.sockfd then (⟨-1, c.messageID, c.timeout⟩, [c.sockfd])
  else (⟨-1, c.messageID, c.timeout⟩, [])

/-- `Connection::~Connection`: runs `closeSockfd`; the descriptors it
closes. -/
def destruct (c : Connection) : List Int := (closeSockfd c).2

/-- Result of a move between two distinct `Connection` objects: the new
target state, the new source state, and the descriptors closed during the
move. -/
structure MoveResult where
  target : Connection
  source : Connection
  closed : List Int
deriving DecidableEq, Repr

/-- `Connection::operator=(Connection&&)` for distinct objects: when the
target holds a descriptor that is neither `-1` nor the source's, it is
closed via `closeSockfd`; then `_sockfd` and `_messageID` (not `_timeout`)
are copied and the source's `_sockfd` is set to `-1`. -/
def moveAssign (t s : Connection) : MoveResult :=
  let closed : List Int :=
    if t.sockfd ≠ -1 ∧ t.sockfd ≠ s.sockfd ∧ 0 ≤ t.sockfd then [t.sockfd] else []
  ⟨⟨s.sockfd, s.messageID, t.timeout⟩, ⟨-1, s.messageID, s.timeout⟩, closed⟩

/-- `Connection::Connection(Connection&&)`: the fresh object's `_sockfd`
starts at the member initialiser `-1`, so the guarded `closeSockfd` never
runs; `_sockfd` and `_messageID` are copied (`_timeout` keeps its default
`DefaultTCPTimeout`) and the source's `_sockfd` is set to `-1`. -/
def moveCtor (s : Connection) : MoveResult :=
  ⟨⟨s.sockfd, s.messageID, DefaultTCPTimeout⟩, ⟨-1, s.messageID, s.timeout⟩, []⟩

/-- Modelled from the spec (§6 wire format): the big-endian `uint16`
transaction id at offsets 0..1 of a frame, used to state claims about
frames in the protocol's own terms. -/
def specBeTransactionId (frame : List Nat) : Option Nat :=
  match frame with
  | b0 :: b1 :: _ => some (256 * b0 + b1)
  | _ => none

/-- Modelled from the spec (§6 wire format): the big-endian `uint16`
payload-length field at offsets 4..5 of a frame. -/
def specBeLenField (frame : List Nat) : Option Nat :=
  match frame with
  | _ :: _ :: _ :: _ :: b4 :: b5 :: _ => some (256 * b4 + b5)
  | _ => none

end ModbusTCP

namespace ModbusTCP

/-- Claim C5 (confirmed): sending the PDU bytes `[0x01, 0x02]` while the
stored transaction id is 5 produces exactly the wire bytes
`[0x00, 0x05, 0x00, 0x00, 0x00, 0x02, 0x01, 0x02]`: big-endian id 5,
protocol id 0, length 2, then the payload verbatim. -/
theorem sendRequest_example_frame :
    (sendRequest ⟨3, 5, 500⟩ [1, 2]).1 = [0, 5, 0, 0, 0, 2, 1, 2] := rfl

set_option maxRecDepth 4000 in
/-- Claim C2 (code bug, failing input): for a 256-byte payload the three
send operations emit a length field (offsets 4..5, read big-endian) equal
to 0, not 256 — the `reinterpret_cast<uint16_t *>` on the `uint32_t` size
picks bits 16..23 and 0..7 instead of the two bytes of the 16-bit value,
so every payload of 256..65535 bytes gets a wrong length field. -/
theorem send_length_field_wrong_at_256 :
    (List.replicate 256 7).length = 256 ∧
    specBeLenField (sendRequest ⟨3, 0, 500⟩ (List.replicate 256 7)).1 = some 0 ∧
    specBeLenField (sendResponse ⟨3, 0, 500⟩ (List.replicate 256 7)).1 = some 0 ∧
    specBeLenField (sendException ⟨3, 0, 500⟩ (List.replicate 256 7)).1 = some 0 := by
  refine ⟨by simp, rfl, rfl, rfl⟩

/-- Claim C3 (code bug, failing input): with stored id 1, a frame whose
wire (big-endian) transaction id is 256 is accepted and its payload handed
to the codec, while the frame that correctly echoes the big-endian id 1
that `sendRequest` itself placed on the wire is rejected with
`InvalidMessageID` — `awaitResponse` reads the received id little-endian
but the id is sent big-endian. -/
theorem awaitResponse_accepts_byteswapped_id :
    specBeTransactionId (sendRequest ⟨3, 1, 500⟩ [9]).1 = some 1 ∧
    specBeTransactionId [1, 0, 0, 0, 0, 1, 66] = some 256 ∧
    awaitResponse 1 (fun _ => false) PollResult.ready
      (RecvResult.data [1, 0, 0, 0, 0, 1, 66]) = some (Except.ok [66]) ∧
    awaitResponse 1 (fun _ => false) PollResult.ready
      (RecvResult.data [0, 1, 0, 0, 0, 1, 66]) =
        some (Except.error MBErr.InvalidMessageID) := by
  exact ⟨rfl, rfl, rfl, rfl⟩

/-- Claim C1 (counterexample): a frame with nonzero protocol-id bytes
(`0xFF 0xFF`) and a declared length (`0xFFFF`) that does not match the one
remaining payload byte is not rejected with `ProtocolError`: both
`awaitRequest` and `awaitResponse` strip the 6 header bytes and hand the
payload `[0xAB]` to the PDU codec. -/
theorem await_no_header_validation_cex :
    awaitRequest PollResult.ready (RecvResult.data [1, 0, 255, 255, 255, 255, 171]) =
      some (Except.ok (1, [171])) ∧
    awaitResponse 1 (fun _ => false) PollResult.ready
      (RecvResult.data [1, 0, 255, 255, 255, 255, 171]) = some (Except.ok [171]) := by
  exact ⟨rfl, rfl⟩

/-- Claim C1 (amended): `awaitRequest` and `awaitResponse` perform no
validation of the protocol-id bytes or of the length field: any received
buffer of at least 6 bytes whose first two bytes pass the id handling has
its first 6 bytes stripped and the remainder handed to the PDU codec (or
to the exception decoder), whatever bytes 2..5 contain; no `ProtocolError`
is raised by header decoding. -/
theorem await_no_header_validation (mid : Nat) (ex : List Nat → Bool) (r : List Nat)
    (h6 : 6 ≤ r.length) (hid : readU16LE r = some mid) :
    awaitRequest PollResult.ready (RecvResult.data r) = some (Except.ok (mid, r.drop 6)) ∧
    awaitResponse mid ex PollResult.ready (RecvResult.data r) =
      some (if ex (r.drop 6) then Except.error (MBErr.ProtocolException (r.drop 6))
            else Except.ok (r.drop 6)) := by
  constructor
  · simp [awaitRequest, processRequestBuffer, hid, eraseHeader, h6]
  · cases hex : ex (r.drop 6) <;>
      simp [awaitResponse, processResponseBuffer, hid, eraseHeader, h6, hex]

/-- Witness for the amended claim C1 at the concrete frame
`[1, 0, 255, 255, 255, 255, 171]` with stored id 1. -/
theorem await_no_header_validation_witness :
    (6 ≤ ([1, 0, 255, 255, 255, 255, 171] : List Nat).length ∧
      readU16LE [1, 0, 255, 255, 255, 255, 171] = some 1) ∧
    awaitRequest PollResult.ready (RecvResult.data [1, 0, 255, 255, 255, 255, 171]) =
      some (Except.ok (1, [171])) ∧
    awaitResponse 1 (fun _ => true) PollResult.ready
      (RecvResult.data [1, 0, 255, 255, 255, 255, 171]) =
        some (Except.error (MBErr.ProtocolException [171])) := by
  have h := await_no_header_validation 1 (fun _ => true)
    [1, 0, 255, 255, 255, 255, 171] (by decide) rfl
  exact ⟨⟨by decide, rfl⟩, by simpa using h.1, by simpa using h.2⟩

end ModbusTCP

namespace ModbusTCP

/-- Claim C4 (confirmed): when the received buffer passes the stored-id
comparison and the payload left after stripping the 6 header bytes is
recognised by `MB::ModbusException::exist`, `awaitResponse` throws the
exception decoded from the payload and never returns a normal response,
whatever the payload would otherwise parse as. -/
theorem awaitResponse_exception_precedence (mid : Nat) (ex : List Nat → Bool)
    (r : List Nat) (h6 : 6 ≤ r.length) (hid : readU16LE r = some mid)
    (hex : ex (r.drop 6) = true) :
    awaitResponse mid ex PollResult.ready (RecvResult.data r) =
      some (Except.error (MBErr.ProtocolException (r.drop 6))) := by
  simp [awaitResponse, processResponseBuffer, hid, eraseHeader, h6, hex]

/-- Witness for claim C4 at the frame `[0, 0, 0, 0, 0, 1, 5]` with stored
id 0 and an exception detector that recognises every payload. -/
theorem awaitResponse_exception_precedence_witness :
    (6 ≤ ([0, 0, 0, 0, 0, 1, 5] : List Nat).length ∧
      readU16LE [0, 0, 0, 0, 0, 1, 5] = some 0 ∧
      (fun _ : List Nat => true) (([0, 0, 0, 0, 0, 1, 5] : List Nat).drop 6) = true) ∧
    awaitResponse 0 (fun _ => true) PollResult.ready
      (RecvResult.data [0, 0, 0, 0, 0, 1, 5]) =
        some (Except.error (MBErr.ProtocolException [5])) := by
  have h := awaitResponse_exception_precedence 0 (fun _ => true)
    [0, 0, 0, 0, 0, 1, 5] (by decide) rfl rfl
  exact ⟨⟨by decide, rfl, rfl⟩, by simpa using h⟩

/-- Claim C6 (counterexample): two consecutive `sendRequest` calls place
identical, not distinct successive, transaction ids on the wire: the
stored `_messageID` is returned unchanged, so the second frame equals the
first byte for byte. -/
theorem sendRequest_no_id_allocation_cex :
    (sendRequest ⟨3, 0, 500⟩ [9]).2 = (⟨3, 0, 500⟩ : Connection) ∧
    (sendRequest ((sendRequest ⟨3, 0, 500⟩ [9]).2) [9]).1 =
      (sendRequest ⟨3, 0, 500⟩ [9]).1 ∧
    specBeTransactionId (sendRequest ⟨3, 0, 500⟩ [9]).1 = some 0 ∧
    specBeTransactionId (sendRequest ((sendRequest ⟨3, 0, 500⟩ [9]).2) [9]).1 =
      some 0 := by
  exact ⟨rfl, rfl, rfl, rfl⟩

/-- Claim C6 (amended): `sendRequest` allocates no new transaction id: it
frames the payload with the connection's currently stored 16-bit
`_messageID` (whose two wire bytes are its big-endian representation) and
leaves the whole connection state unchanged, so that same stored value is
the one `awaitResponse` later validates against; consecutive calls reuse
one id. -/
theorem sendRequest_uses_stored_id (c : Connection) (dat : List Nat) :
    (sendRequest c dat).2 = c ∧
    (sendRequest c dat).1.take 2 = [c.messageID % 65536 / 256, c.messageID % 256] := by
  exact ⟨rfl, rfl⟩

/-- Claim C7 (confirmed): failure classification of the three receive
operations. Poll expiry yields `Timeout` in `awaitRequest` (fixed
60-second window) and in `awaitResponse` (the configurable `_timeout`),
but `ConnectionClosed` in `awaitRawMessage`; in all three a zero-byte read
yields `ConnectionClosed` and a failed `recv` call yields
`ProtocolError`. -/
theorem receive_error_classification :
    (∀ rv, awaitRequest PollResult.timeout rv = some (Except.error MBErr.Timeout)) ∧
    (∀ mid ex rv, awaitResponse mid ex PollResult.timeout rv =
      some (Except.error MBErr.Timeout)) ∧
    (∀ rv, awaitRawMessage PollResult.timeout rv =
      Except.error MBErr.ConnectionClosed) ∧
    awaitRequest PollResult.ready RecvResult.closed =
      some (Except.error MBErr.ConnectionClosed) ∧
    (∀ mid ex, awaitResponse mid ex PollResult.ready RecvResult.closed =
      some (Except.error MBErr.ConnectionClosed)) ∧
    awaitRawMessage PollResult.ready RecvResult.closed =
      Except.error MBErr.ConnectionClosed ∧
    awaitRequest PollResult.ready RecvResult.error =
      some (Except.error MBErr.ProtocolError) ∧
    (∀ mid ex, awaitResponse mid ex PollResult.ready RecvResult.error =
      some (Except.error MBErr.ProtocolError)) ∧
    awaitRawMessage PollResult.ready RecvResult.error =
      Except.error MBErr.ProtocolError ∧
    awaitRequestPollMs = 60000 ∧
    awaitRawMessagePollMs = 60000 ∧
    (∀ c : Connection, awaitResponsePollMs c = c.timeout) := by
  exact ⟨fun _ => rfl, fun _ _ _ => rfl, fun _ => rfl, rfl, fun _ _ => rfl, rfl,
    rfl, fun _ _ => rfl, rfl, rfl, rfl, fun _ => rfl⟩

/-- Claim C8 (counterexample): a frame split across two underlying reads
is not assembled. The first chunk `[0, 5, 0, 0, 0, 3]` is a complete
6-byte header declaring 3 payload bytes; `awaitResponse` (stored id 1280,
the little-endian reading of the first two bytes) performs no further
read, strips the header and hands the empty payload to the codec instead
of the declared 3 bytes. -/
theorem awaitResponse_single_read_cex :
    specBeLenField [0, 5, 0, 0, 0, 3] = some 3 ∧
    awaitResponse 1280 (fun _ => false) PollResult.ready
      (RecvResult.data [0, 5, 0, 0, 0, 3]) = some (Except.ok []) := by
  exact ⟨rfl, rfl⟩

/-- Claim C8 (amended): each receive operation performs a single `recv`
of at most 1024 bytes and treats that one read's buffer as the whole
frame: the declared length field is never consulted and no further read
occurs, so even when the declared length disagrees with the bytes
actually present, the single chunk minus its 6 header bytes is what
reaches the codec. -/
theorem await_single_read_no_reassembly (mid : Nat) (ex : List Nat → Bool)
    (r : List Nat) (h6 : 6 ≤ r.length) (hid : readU16LE r = some mid)
    (_hlen : specBeLenField r ≠ some (r.length - 6)) :
    awaitRequest PollResult.ready (RecvResult.data r) =
      some (Except.ok (mid, r.drop 6)) ∧
    awaitResponse mid ex PollResult.ready (RecvResult.data r) =
      some (if ex (r.drop 6) then Except.error (MBErr.ProtocolException (r.drop 6))
            else Except.ok (r.drop 6)) := by
  constructor
  · simp [awaitRequest, processRequestBuffer, hid, eraseHeader, h6]
  · cases hex : ex (r.drop 6) <;>
      simp [awaitResponse, processResponseBuffer, hid, eraseHeader, h6, hex]

/-- Witness for the amended claim C8 at the header-only chunk
`[0, 5, 0, 0, 0, 3]`: the declared length 3 disagrees with the 0 bytes
present after the header, yet the codec receives the empty payload. -/
theorem await_single_read_no_reassembly_witness :
    (6 ≤ ([0, 5, 0, 0, 0, 3] : List Nat).length ∧
      readU16LE [0, 5, 0, 0, 0, 3] = some 1280 ∧
      specBeLenField [0, 5, 0, 0, 0, 3] ≠
        some (([0, 5, 0, 0, 0, 3] : List Nat).length - 6)) ∧
    awaitRequest PollResult.ready (RecvResult.data [0, 5, 0, 0, 0, 3]) =
      some (Except.ok (1280, [])) ∧
    awaitResponse 1280 (fun _ => false) PollResult.ready
      (RecvResult.data [0, 5, 0, 0, 0, 3]) = some (Except.ok []) := by
  have h := await_single_read_no_reassembly 1280 (fun _ => false)
    [0, 5, 0, 0, 0, 3] (by decide) rfl (by decide)
  exact ⟨⟨by decide, rfl, by decide⟩, by simpa using h.1, by simpa using h.2⟩

end ModbusTCP

namespace ModbusTCP

/-- Claim C9 (confirmed): after a move (construction or assignment between
distinct objects) the source holds the sentinel `-1` and its destructor
closes nothing; move assignment onto a connection owning a different live
descriptor closes that descriptor first; afterwards the target alone holds
the transferred descriptor, so no descriptor has two owners. -/
theorem connection_move_ownership (t s : Connection)
    (hlive : 0 ≤ t.sockfd) (hne : t.sockfd ≠ s.sockfd) :
    ((moveCtor s).source.sockfd = -1 ∧ destruct (moveCtor s).source = [] ∧
      (moveCtor s).target.sockfd = s.sockfd ∧ (moveCtor s).closed = []) ∧
    ((moveAssign t s).source.sockfd = -1 ∧ destruct (moveAssign t s).source = [] ∧
      (moveAssign t s).target.sockfd = s.sockfd ∧
      (moveAssign t s).closed = [t.sockfd]) := by
  have hm1 : t.sockfd ≠ -1 := by omega
  refine ⟨⟨rfl, ?_, rfl, rfl⟩, ⟨rfl, ?_, rfl, ?_⟩⟩
  · simp [destruct, closeSockfd, moveCtor]
  · simp [destruct, closeSockfd, moveAssign]
  · simp [moveAssign, hm1, hne, hlive]

/-- Witness for claim C9: target owning descriptor 3, source owning
descriptor 7. -/
theorem connection_move_ownership_witness :
    ((0 : Int) ≤ (3 : Int) ∧ (3 : Int) ≠ 7) ∧
    ((moveCtor ⟨7, 9, 200⟩).source.sockfd = -1 ∧
      destruct (moveCtor ⟨7, 9, 200⟩).source = [] ∧
      (moveCtor ⟨7, 9, 200⟩).target.sockfd = 7) ∧
    ((moveAssign ⟨3, 0, 500⟩ ⟨7, 9, 200⟩).source.sockfd = -1 ∧
      destruct (moveAssign ⟨3, 0, 500⟩ ⟨7, 9, 200⟩).source = [] ∧
      (moveAssign ⟨3, 0, 500⟩ ⟨7, 9, 200⟩).target.sockfd = 7 ∧
      (moveAssign ⟨3, 0, 500⟩ ⟨7, 9, 200⟩).closed = [3]) := by
  have h := connection_move_ownership ⟨3, 0, 500⟩ ⟨7, 9, 200⟩ (by decide) (by decide)
  exact ⟨⟨by decide, by decide⟩, ⟨h.1.1, h.1.2.1, h.1.2.2.1⟩, h.2⟩

/-- Claim C10 (counterexample): not every 1..5-byte buffer causes an
out-of-bounds access in `awaitResponse`: a 3-byte buffer whose two leading
bytes mismatch the stored id is rejected with `InvalidMessageID` before
the out-of-bounds 6-byte erase is reached. -/
theorem awaitResponse_short_mismatch_no_oob_cex :
    ([0, 0, 0] : List Nat).length = 3 ∧
    awaitResponse 999 (fun _ => false) PollResult.ready
      (RecvResult.data [0, 0, 0]) = some (Except.error MBErr.InvalidMessageID) := by
  exact ⟨rfl, rfl⟩

/-- Claim C10 (amended): for every received buffer of 1 to 5 bytes,
`awaitRequest` accesses the buffer out of bounds (the id read at length 1,
the 6-byte erase at lengths 2..5); `awaitResponse` does so at length 1 and
whenever the id comparison succeeds, but a 2..5-byte buffer with a
mismatched id fails with `InvalidMessageID` before any out-of-bounds
access. In-bounds header handling needs at least 6 received bytes, which
no code path checks. -/
theorem await_short_buffer_oob (r : List Nat) (h1 : 1 ≤ r.length)
    (h5 : r.length ≤ 5) :
    awaitRequest PollResult.ready (RecvResult.data r) = none ∧
    (∀ mid ex, readU16LE r = some mid →
      awaitResponse mid ex PollResult.ready (RecvResult.data r) = none) ∧
    (r.length = 1 → ∀ mid ex,
      awaitResponse mid ex PollResult.ready (RecvResult.data r) = none) ∧
    (∀ s : List Nat, 6 ≤ s.length →
      awaitRequest PollResult.ready (RecvResult.data s) ≠ none) := by
  refine ⟨?_, ?_, ?_, ?_⟩
  · cases r with
    | nil => simp at h1
    | cons a t =>
      cases t with
      | nil => rfl
      | cons b t' =>
        have hlt : ¬ 4 ≤ t'.length := by
          simp only [List.length_cons] at h5; omega
        simp [awaitRequest, processRequestBuffer, readU16LE, eraseHeader, hlt]
  · intro mid ex hmid
    cases r with
    | nil => simp [readU16LE] at hmid
    | cons a t =>
      cases t with
      | nil => simp [readU16LE] at hmid
      | cons b t' =>
        have hlt : ¬ 4 ≤ t'.length := by
          simp only [List.length_cons] at h5; omega
        simp [awaitResponse, processResponseBuffer, hmid, eraseHeader, hlt]
  · intro hlen mid ex
    cases r with
    | nil => simp at h1
    | cons a t =>
      cases t with
      | nil => rfl
      | cons b t' => simp [List.length_cons] at hlen
  · intro s hs
    cases s with
    | nil => simp at hs
    | cons a t =>
      cases t with
      | nil => simp only [List.length_cons, List.length_nil] at hs; omega
      | cons b t' =>
        have hge : 4 ≤ t'.length := by
          simp only [List.length_cons] at hs; omega
        simp [awaitRequest, processRequestBuffer, readU16LE, eraseHeader, hge]

/-- Witness for the amended claim C10 at the 2-byte buffer `[0, 0]`. -/
theorem await_short_buffer_oob_witness :
    (1 ≤ ([0, 0] : List Nat).length ∧ ([0, 0] : List Nat).length ≤ 5) ∧
    awaitRequest PollResult.ready (RecvResult.data [0, 0]) = none ∧
    awaitResponse 0 (fun _ => false) PollResult.ready (RecvResult.data [0, 0]) =
      none := by
  have h := await_short_buffer_oob [0, 0] (by decide) (by decide)
  exact ⟨⟨by decide, by decide⟩, h.1, h.2.1 0 (fun _ => false) rfl⟩

end ModbusTCP
